import Mathlib

/-
Verification of the benchmark scenario engine of `go-sqlite-bench`
(`app/app.go`).

The engine's data generators, validation loops, reporting, and control
flow are embedded from `app/app.go`.  The domain model (`User`,
`Article`, `Comment`, `NewUser`, ...) and the storage contract (`Db`
with `InsertUsers`, `FindUsers`, `FindUsersArticlesComments`, ...) live
in repository files that are not part of the sources here; they are
modelled from the specification (sections 3, 4.1 and 9) and are marked
as such in their doc comments.

Machine integers: all integer values in play (ids, counters,
nanosecond offsets, millisecond durations) are small positive values
far below 2^63, so they are embedded as `Nat`.
-/

namespace GoSqliteBench

/-! ## Time

Go `time.Time` restricted to what the benchmark uses.  Every timestamp
the generators build is `base.Add(d)` for the fixed base instant
`time.Date(2023, 10, 1, 10, 0, 0, 0, time.Local)` (app.go) and a
non-negative duration `d`, so a timestamp is embedded as the number of
nanoseconds after that base instant. -/

structure GoTime where
  nanos : Nat
deriving DecidableEq, Repr

/-- `time.Minute` in nanoseconds. -/
def timeMinute : Nat := 60000000000

/-- `time.Second` in nanoseconds. -/
def timeSecond : Nat := 1000000000

/-- `time.Millisecond` in nanoseconds. -/
def timeMillisecond : Nat := 1000000

/-- `base.Add(d)` for a non-negative duration of `d` nanoseconds. -/
def GoTime.addNanos (t : GoTime) (d : Nat) : GoTime := ⟨t.nanos + d⟩

/-- The base instant itself: 2023-10-01 10:00:00 local time. -/
def baseTime : GoTime := ⟨0⟩

/-- Gregorian leap-year test. -/
def isLeap (y : Nat) : Bool := (y % 4 == 0 && y % 100 != 0) || y % 400 == 0

/-- Number of days of the calendar year `y`. -/
def daysInYear (y : Nat) : Nat := if isLeap y then 366 else 365

/-- The calendar year containing the `d`-th day (0-based) counted from
January 1 of year `y`. -/
def yearFromDays (y d : Nat) : Nat :=
  if d < daysInYear y then y else yearFromDays (y + 1) (d - daysInYear y)
termination_by d
decreasing_by
  have h365 : 365 ≤ daysInYear y := by unfold daysInYear; split <;> omega
  omega

/-- `time.Time.Year()` for a benchmark timestamp.  2023-10-01 is day
273 (0-based) of 2023 and the base instant is 36000 seconds (10 hours)
into that day, so the timestamp lies `273 + (36000 + s) / 86400` days
after 2023-01-01, where `s` is its whole-second offset from the base
instant. -/
def GoTime.Year (t : GoTime) : Nat :=
  yearFromDays 2023 (273 + (36000 + t.nanos / 1000000000) / 86400)

/-! ## Domain model

Modelled from the spec (section 3): three entity kinds, each an
immutable value with a deterministic constructor; field names follow
the accesses in `app.go` (`u.Id`, `u.Created`, `u.Email`, `u.Active`,
`article.UserId`, `article.Text`, `comment.ArticleId`, ...). -/

structure User where
  Id : Nat
  Created : GoTime
  Email : String
  Active : Bool
deriving DecidableEq, Repr

structure Article where
  Id : Nat
  Created : GoTime
  UserId : Nat
  Text : String
deriving DecidableEq, Repr

structure Comment where
  Id : Nat
  Created : GoTime
  ArticleId : Nat
  Text : String
deriving DecidableEq, Repr

/-- Modelled from the spec: deterministic `User` constructor. -/
def NewUser (id : Nat) (created : GoTime) (email : String) (active : Bool) : User :=
  ⟨id, created, email, active⟩

/-- Modelled from the spec: deterministic `Article` constructor. -/
def NewArticle (id : Nat) (created : GoTime) (userId : Nat) (text : String) : Article :=
  ⟨id, created, userId, text⟩

/-- Modelled from the spec: deterministic `Comment` constructor. -/
def NewComment (id : Nat) (created : GoTime) (articleId : Nat) (text : String) : Comment :=
  ⟨id, created, articleId, text⟩

/-- Placeholder used with `List.getD` when stating positional facts. -/
def defaultUser : User := ⟨0, ⟨0⟩, "", false⟩

/-! ## Strings built by the generators

`fmt.Sprintf` verbs used by `app.go`: `%d` (decimal) and `%08d`
(decimal, zero-padded on the left to at least eight characters), plus
`strings.Repeat` and Go byte-slicing `s[a:b]` (all strings involved
are ASCII, so bytes coincide with characters). -/

/-- The decimal digit character for `d < 10`. -/
def digitChar (d : Nat) : Char := Char.ofNat (48 + d)

/-- Decimal digits, most significant first, computed with explicit
fuel (any fuel above the value itself is enough, since `n / 10 < n`). -/
def natDigitsAux (fuel n : Nat) : List Char :=
  match fuel with
  | 0 => []
  | fuel + 1 =>
    if n < 10 then [digitChar n]
    else natDigitsAux fuel (n / 10) ++ [digitChar (n % 10)]

/-- Decimal digits of `n`, most significant first (Go `%d`). -/
def natDigits (n : Nat) : List Char := natDigitsAux (n + 1) n

/-- Go `%d` as a string. -/
def natStr (n : Nat) : String := ⟨natDigits n⟩

/-- Go `%0wd`: decimal digits of `n`, zero-padded on the left to at
least `w` characters. -/
def pad0 (w n : Nat) : List Char :=
  List.replicate (w - (natDigits n).length) '0' ++ natDigits n

/-- `fmt.Sprintf("user%08d@example.com", k)` (app.go, benchSimple,
benchComplex, benchMany). -/
def emailUser08 (k : Nat) : String := "user" ++ (⟨pad0 8 k⟩ : String) ++ "@example.com"

/-- `fmt.Sprintf("user%d@example.com", k)` (app.go, benchConcurrent). -/
def emailUserPlain (k : Nat) : String := "user" ++ natStr k ++ "@example.com"

/-- Go `strings.Repeat(s, n)` (app.go, benchLarge). -/
def stringsRepeat (s : String) (n : Nat) : String := ⟨(List.replicate n s.data).flatten⟩

/-- Go byte-slice `s[a:b]` on an ASCII string. -/
def goSlice (s : String) (a b : Nat) : String := ⟨(s.data.drop a).take (b - a)⟩

/-! ## Ordered queries

Modelled from the spec (section 4.1): `FindUsers` returns the full
materialized result sequence of the given read statement; the
benchmark always passes `SELECT id,created,email,active FROM users
ORDER BY id`, so the model returns the stored rows sorted by `Id`.
The sort is a plain insertion sort over a boolean `le`. -/

def insertLe (le : α → α → Bool) (x : α) : List α → List α
  | [] => [x]
  | y :: ys => if le x y then x :: y :: ys else y :: insertLe le x ys

def sortLe (le : α → α → Bool) (l : List α) : List α := l.foldr (insertLe le) []

/-- Comparison realizing `ORDER BY id` on users. -/
def userLe (u v : User) : Bool := decide (u.Id ≤ v.Id)

/-! ## Storage contract

Modelled from the spec (section 4.1): the backend stores the three
tables; a batched insert appends all given rows in one call; ordered
full-table queries return everything stored, ordered by the query's
ORDER BY clause. -/

structure DbState where
  users : List User
  articles : List Article
  comments : List Comment
deriving DecidableEq, Repr

def emptyDb : DbState := ⟨[], [], []⟩

/-- Modelled from the spec: `InsertUsers` stores the batch. -/
def DbState.InsertUsers (s : DbState) (rows : List User) : DbState :=
  { s with users := s.users ++ rows }

/-- Modelled from the spec: `InsertArticles` stores the batch. -/
def DbState.InsertArticles (s : DbState) (rows : List Article) : DbState :=
  { s with articles := s.articles ++ rows }

/-- Modelled from the spec: `InsertComments` stores the batch. -/
def DbState.InsertComments (s : DbState) (rows : List Comment) : DbState :=
  { s with comments := s.comments ++ rows }

/-- Modelled from the spec: `FindUsers` with the benchmark's fixed
`SELECT ... ORDER BY id` statement. -/
def DbState.FindUsers (s : DbState) : List User := sortLe userLe s.users

/-- One record of the flattened join stream of the complex scenario's
query: one row per leaf comment, carrying the joined user and article. -/
abbrev JoinRow := User × Article × Comment

/-- The `ORDER BY users.created, articles.created, comments.created`
comparison on join records. -/
def rowLe (x y : JoinRow) : Bool :=
  decide (x.1.Created.nanos < y.1.Created.nanos) ||
    (decide (x.1.Created.nanos = y.1.Created.nanos) &&
      (decide (x.2.1.Created.nanos < y.2.1.Created.nanos) ||
        (decide (x.2.1.Created.nanos = y.2.1.Created.nanos) &&
          decide (x.2.2.Created.nanos ≤ y.2.2.Created.nanos))))

/-- Modelled from the spec: the record stream of the complex query
`FROM users JOIN articles ON articles.userId = users.id JOIN comments
ON comments.articleId = articles.id`, one row per leaf comment, before
ordering. -/
def joinRows (s : DbState) : List JoinRow :=
  s.users.flatMap fun u =>
    (s.articles.filter fun a => a.UserId == u.Id).flatMap fun a =>
      (s.comments.filter fun c => c.ArticleId == a.Id).map fun c => (u, a, c)

/-- Modelled from the spec (section 9): the streaming accumulator that
rebuilds the three entity sequences from the ordered join stream,
appending a comment for every record and a parent entity only when its
id changes from the previous record (the last-seen ids start at 0,
below every real id). -/
def recon (lastU lastA : Nat) : List JoinRow → List User × List Article × List Comment
  | [] => ([], [], [])
  | (u, a, c) :: rest =>
    let r := recon u.Id a.Id rest
    ((if u.Id = lastU then r.1 else u :: r.1),
      (if a.Id = lastA then r.2.1 else a :: r.2.1),
      c :: r.2.2)

/-- Modelled from the spec: `FindUsersArticlesComments` runs the join
query, orders the stream by the query's ORDER BY clause, and rebuilds
the three sequences with the streaming accumulator. -/
def DbState.FindUsersArticlesComments (s : DbState) :
    List User × List Article × List Comment :=
  recon 0 0 (sortLe rowLe (joinRows s))

/-! ## Generators (from `app.go`)

Each scenario builds its rows in a loop before inserting them.  The
loops are embedded as maps over `List.range`; the Go counters
`userId`, `articleId`, `commentId` of `benchComplex` (incremented once
per iteration of their loop level) are replaced by their closed forms
in the loop indices: after the increments they equal `u+1`,
`u*narticlesPerUser + a + 1` and
`(u*narticlesPerUser + a)*ncommentsPerArticle + c + 1`. -/

/-- The user rows built by `benchSimple` (app.go lines 103-113); the
source fixes the loop bound `nusers` to 1000000. -/
def genSimpleUsers (nusers : Nat) : List User :=
  (List.range nusers).map fun i =>
    NewUser (i + 1) (baseTime.addNanos (i * timeMinute)) (emailUser08 (i + 1)) true

/-- `const nusers = 1_000_000` of `benchSimple`. -/
def simpleNUsers : Nat := 1000000

/-- The user rows built by `benchMany` (app.go lines 267-276) for its
`nusers` parameter. -/
def genManyUsers (nusers : Nat) : List User :=
  (List.range nusers).map fun i =>
    NewUser (i + 1) (baseTime.addNanos (i * timeMinute)) (emailUser08 (i + 1)) true

/-- The user rows built by `benchLarge` (app.go lines 317-325) for its
`nsize` parameter; the source fixes the row count to 10000. -/
def genLargeUsers (nsize : Nat) : List User :=
  (List.range 10000).map fun i =>
    NewUser (i + 1) (baseTime.addNanos (i * timeSecond)) (stringsRepeat "a" nsize) true

/-- `const nusers = 10_000` of `benchLarge`. -/
def largeNUsers : Nat := 10000

/-- The user rows built by `benchConcurrent` (app.go lines 358-366);
the source fixes the row count to 1000000. -/
def genConcurrentUsers : List User :=
  (List.range 1000000).map fun i =>
    NewUser (i + 1) (baseTime.addNanos (i * timeSecond)) (emailUserPlain (i + 1)) true

/-- `const nusers = 1_000_000` of `benchConcurrent`. -/
def concurrentNUsers : Nat := 1000000

/-- `const nusers = 200` of `benchComplex`. -/
def complexNUsers : Nat := 200

/-- `const narticlesPerUser = 100` of `benchComplex`. -/
def complexNArticlesPerUser : Nat := 100

/-- `const ncommentsPerArticle = 20` of `benchComplex`. -/
def complexNCommentsPerArticle : Nat := 20

/-- Created timestamp of the `u`-th user of `benchComplex`. -/
def complexUserCreated (u : Nat) : GoTime := baseTime.addNanos (u * timeMinute)

/-- Created timestamp of article `a` of user `u` of `benchComplex`. -/
def complexArticleCreated (u a : Nat) : GoTime :=
  baseTime.addNanos (u * timeMinute + a * timeSecond)

/-- Created timestamp of comment `c` of article `a` of user `u`. -/
def complexCommentCreated (u a c : Nat) : GoTime :=
  baseTime.addNanos (u * timeMinute + a * timeSecond + c * timeMillisecond)

/-- The user built in iteration `u` of `benchComplex` (app.go 166-174). -/
def complexUser (u : Nat) : User :=
  NewUser (u + 1) (complexUserCreated u) (emailUser08 (u + 1)) (u % 2 == 0)

/-- The article built in iteration `(u, a)` of `benchComplex`
(app.go 175-183), with `A` the articles-per-user parameter. -/
def complexArticle (A u a : Nat) : Article :=
  NewArticle (u * A + a + 1) (complexArticleCreated u a) (u + 1) "article text"

/-- The comment built in iteration `(u, a, c)` of `benchComplex`
(app.go 184-193), with `A`, `C` the per-level fan-out parameters. -/
def complexComment (A C u a c : Nat) : Comment :=
  NewComment ((u * A + a) * C + c + 1) (complexCommentCreated u a c)
    (u * A + a + 1) "comment text"

/-- The user rows built by `benchComplex`. -/
def genComplexUsers (n : Nat) : List User := (List.range n).map complexUser

/-- The article rows built by `benchComplex`. -/
def genComplexArticles (n A : Nat) : List Article :=
  (List.range n).flatMap fun u => (List.range A).map (complexArticle A u)

/-- The comment rows built by `benchComplex`. -/
def genComplexComments (n A C : Nat) : List Comment :=
  (List.range n).flatMap fun u =>
    (List.range A).flatMap fun a => (List.range C).map (complexComment A C u a)

/-! ## Per-scenario database states

Each scenario starts from a freshly reset target (`removeDbfiles` +
`initSchema`) and performs its batched inserts. -/

/-- The store after `benchSimple`'s insert phase. -/
def simpleDb : DbState := emptyDb.InsertUsers (genSimpleUsers simpleNUsers)

/-- The store after `benchMany`'s insert phase for parameter `n`. -/
def manyDb (n : Nat) : DbState := emptyDb.InsertUsers (genManyUsers n)

/-- The store after `benchLarge`'s insert phase for parameter `nsize`. -/
def largeDb (nsize : Nat) : DbState := emptyDb.InsertUsers (genLargeUsers nsize)

/-- The store after `benchConcurrent`'s seed phase. -/
def concurrentDb : DbState := emptyDb.InsertUsers genConcurrentUsers

/-- The store after `benchComplex`'s three insert calls, parametrized
by the three fan-out constants. -/
def complexDb (n A C : Nat) : DbState :=
  ((emptyDb.InsertUsers (genComplexUsers n)).InsertArticles
      (genComplexArticles n A)).InsertComments (genComplexComments n A C)

/-! ## Infrastructure lemmas -/

theorem length_insertLe (le : α → α → Bool) (x : α) (l : List α) :
    (insertLe le x l).length = l.length + 1 := by
  induction l with
  | nil => rfl
  | cons y ys ih =>
    unfold insertLe
    split <;> simp [ih]

theorem length_sortLe (le : α → α → Bool) (l : List α) :
    (sortLe le l).length = l.length := by
  induction l with
  | nil => rfl
  | cons y ys ih =>
    show (insertLe le y (sortLe le ys)).length = ys.length + 1
    rw [length_insertLe, ih]

theorem insertLe_of_forall (le : α → α → Bool) (x : α) (l : List α)
    (h : ∀ y ∈ l, le x y = true) : insertLe le x l = x :: l := by
  cases l with
  | nil => rfl
  | cons y ys =>
    unfold insertLe
    rw [if_pos (h y (List.mem_cons_self y ys))]

theorem sortLe_of_pairwise (le : α → α → Bool) (l : List α)
    (h : l.Pairwise fun a b => le a b = true) : sortLe le l = l := by
  induction l with
  | nil => rfl
  | cons y ys ih =>
    show insertLe le y (sortLe le ys) = y :: ys
    rw [ih h.of_cons, insertLe_of_forall]
    exact fun z hz => List.rel_of_pairwise_cons h hz

/-- A list of users whose ids ascend with the position is already in
`ORDER BY id` order, so the modelled query returns it unchanged. -/
theorem sortLe_map_range_id (n : Nat) (f : Nat → User) (hf : ∀ i, (f i).Id = i + 1) :
    sortLe userLe ((List.range n).map f) = (List.range n).map f := by
  apply sortLe_of_pairwise
  rw [List.pairwise_map]
  exact (List.pairwise_lt_range n).imp fun hab => by
    simp only [userLe, hf, decide_eq_true_eq]
    omega

theorem natDigits_ne_nil (n : Nat) : natDigits n ≠ [] := by
  unfold natDigits natDigitsAux
  split
  · simp
  · simp

theorem natDigitsAux_length_le :
    ∀ fuel n k, n < fuel → 1 ≤ k → n < 10 ^ k → (natDigitsAux fuel n).length ≤ k := by
  intro fuel
  induction fuel with
  | zero => intro n k h; omega
  | succ fuel ih =>
    intro n k hfuel hk hn
    unfold natDigitsAux
    by_cases h10 : n < 10
    · rw [if_pos h10]
      simpa using hk
    · rw [if_neg h10]
      have hk2 : 2 ≤ k := by
        by_contra hlt
        have hk1 : k = 1 := by omega
        subst hk1
        simp at hn
        omega
      have hdiv10 : n / 10 < 10 ^ (k - 1) := by
        rw [Nat.div_lt_iff_lt_mul (by omega)]
        calc n < 10 ^ k := hn
        _ = 10 ^ (k - 1) * 10 := by
          rw [← pow_succ]
          congr 1
          omega
      have hfa : n / 10 < fuel := by
        have := Nat.div_lt_self (by omega : 0 < n) (by omega : 1 < 10)
        omega
      have := ih (n / 10) (k - 1) hfa (by omega) hdiv10
      simp only [List.length_append, List.length_cons, List.length_nil]
      omega

theorem natDigits_length_le_of_lt {n k : Nat} (hk : 1 ≤ k) (hn : n < 10 ^ k) :
    (natDigits n).length ≤ k :=
  natDigitsAux_length_le (n + 1) n k (by omega) hk hn

/-- `%0wd` of a number with fewer than `w` digits starts with `'0'`. -/
theorem pad0_cons_zero {w n : Nat} (h : (natDigits n).length < w) :
    ∃ rest, pad0 w n = '0' :: rest := by
  unfold pad0
  have : ∃ m, w - (natDigits n).length = m + 1 := ⟨w - (natDigits n).length - 1, by omega⟩
  obtain ⟨m, hm⟩ := this
  rw [hm]
  exact ⟨List.replicate m '0' ++ natDigits n, rfl⟩

theorem pad0_length {w n : Nat} (h : (natDigits n).length ≤ w) :
    (pad0 w n).length = w := by
  unfold pad0
  simp only [List.length_append, List.length_replicate]
  omega

/-! ### Year arithmetic -/

theorem daysInYear_2023 : daysInYear 2023 = 365 := by unfold daysInYear isLeap; norm_num

theorem daysInYear_2024 : daysInYear 2024 = 366 := by unfold daysInYear isLeap; norm_num

theorem yearFromDays_2023 {d : Nat} (h : d < 365) : yearFromDays 2023 d = 2023 := by
  rw [yearFromDays, if_pos (by rw [daysInYear_2023]; omega)]

theorem yearFromDays_2024 {d : Nat} (h1 : 365 ≤ d) (h2 : d < 731) :
    yearFromDays 2023 d = 2024 := by
  rw [yearFromDays, if_neg (by rw [daysInYear_2023]; omega), daysInYear_2023]
  show yearFromDays 2024 (d - 365) = 2024
  rw [yearFromDays, if_pos (by rw [daysInYear_2024]; omega)]

theorem yearFromDays_2025 {d : Nat} (h1 : 731 ≤ d) (h2 : d < 1096) :
    yearFromDays 2023 d = 2025 := by
  rw [yearFromDays, if_neg (by rw [daysInYear_2023]; omega), daysInYear_2023]
  show yearFromDays 2024 (d - 365) = 2025
  rw [yearFromDays, if_neg (by rw [daysInYear_2024]; omega), daysInYear_2024]
  show yearFromDays 2025 (d - 365 - 366) = 2025
  rw [yearFromDays, if_pos]
  unfold daysInYear isLeap
  norm_num
  omega

/-- A timestamp less than 999 minutes after the base instant still
falls in 2023 (`benchMany`: at most 999 whole minutes). -/
theorem year_2023_of_minutes {i : Nat} (h : i < 131280) :
    GoTime.Year (baseTime.addNanos (i * timeMinute)) = 2023 := by
  unfold GoTime.Year GoTime.addNanos baseTime timeMinute
  apply yearFromDays_2023
  have hsec : (0 + i * 60000000000) / 1000000000 = i * 60 := by
    omega
  rw [hsec]
  omega

/-- A timestamp less than 10000 seconds after the base instant falls
in 2023 (`benchLarge`). -/
theorem year_2023_of_seconds {i : Nat} (h : i < 7876800) :
    GoTime.Year (baseTime.addNanos (i * timeSecond)) = 2023 := by
  unfold GoTime.Year GoTime.addNanos baseTime timeSecond
  apply yearFromDays_2023
  have hsec : (0 + i * 1000000000) / 1000000000 = i := by
    omega
  rw [hsec]
  omega

/-- Year bounds of the `benchSimple` timestamps: up to 999999 minutes
after the base instant the year stays within 2023..2025. -/
theorem year_range_simple {i : Nat} (h : i < 1000000) :
    2023 ≤ GoTime.Year (baseTime.addNanos (i * timeMinute)) ∧
      GoTime.Year (baseTime.addNanos (i * timeMinute)) ≤ 2025 := by
  unfold GoTime.Year GoTime.addNanos baseTime timeMinute
  have hsec : (0 + i * 60000000000) / 1000000000 = i * 60 := by
    omega
  rw [hsec]
  set d := 273 + (36000 + i * 60) / 86400 with hd
  have hdlt : d < 1096 := by
    have : (36000 + i * 60) / 86400 ≤ (36000 + 999999 * 60) / 86400 :=
      Nat.div_le_div_right (by omega)
    omega
  by_cases h1 : d < 365
  · rw [yearFromDays_2023 h1]; omega
  · by_cases h2 : d < 731
    · rw [yearFromDays_2024 (by omega) h2]; omega
    · rw [yearFromDays_2025 (by omega) hdlt]; omega

/-! ### Email strings -/

theorem emailUser08_data (k : Nat) :
    (emailUser08 k).data = "user".data ++ pad0 8 k ++ "@example.com".data := by
  unfold emailUser08
  rw [String.data_append, String.data_append]

/-- For ids below 10^7 the zero padding of `%08d` is non-empty, so the
first five bytes of `fmt.Sprintf("user%08d@example.com", k)` are
`user0` (the check of app.go lines 132, 227, 297). -/
theorem emailUser08_first5 {k : Nat} (hk : k < 10000000) :
    goSlice (emailUser08 k) 0 5 = "user0" := by
  have hlen : (natDigits k).length ≤ 7 :=
    natDigits_length_le_of_lt (by norm_num) (by norm_num at hk ⊢; omega)
  obtain ⟨rest, hrest⟩ := pad0_cons_zero (w := 8) (n := k) (by omega)
  apply String.ext
  show (((emailUser08 k).data.drop 0).take (5 - 0)) = "user0".data
  rw [emailUser08_data, hrest]
  rfl

/-- The first four bytes of `fmt.Sprintf("user%d@example.com", k)` are
`user` (the check of app.go line 388). -/
theorem emailUserPlain_first4 (k : Nat) : goSlice (emailUserPlain k) 0 4 = "user" := by
  apply String.ext
  show (((emailUserPlain k).data.drop 0).take (4 - 0)) = "user".data
  unfold emailUserPlain
  rw [String.data_append, String.data_append]
  rfl

/-- The first byte of `strings.Repeat("a", nsize)` is `a` whenever
`nsize` is positive (the check of app.go line 339). -/
theorem stringsRepeat_a_first1 {nsize : Nat} (h : 0 < nsize) :
    goSlice (stringsRepeat "a" nsize) 0 1 = "a" := by
  obtain ⟨m, rfl⟩ : ∃ m, nsize = m + 1 := ⟨nsize - 1, by omega⟩
  apply String.ext
  show (((stringsRepeat "a" (m + 1)).data.drop 0).take (1 - 0)) = "a".data
  unfold stringsRepeat
  rw [List.replicate_succ]
  rfl

/-! ### Query results of the single-table scenarios -/

theorem getD_map_range {α : Type} {f : Nat → α} {n i : Nat} (h : i < n) (d : α) :
    ((List.range n).map f).getD i d = f i := by
  rw [List.getD_eq_getElem _ _ (by simpa using h), List.getElem_map, List.getElem_range]

/-- The rows `benchSimple` inserts are already in ascending-id order,
so the modelled `SELECT ... ORDER BY id` returns them unchanged. -/
theorem findUsers_simpleDb : simpleDb.FindUsers = genSimpleUsers simpleNUsers := by
  show sortLe userLe ([] ++ genSimpleUsers simpleNUsers) = genSimpleUsers simpleNUsers
  rw [List.nil_append]
  exact sortLe_map_range_id _ _ fun i => rfl

theorem findUsers_manyDb (n : Nat) : (manyDb n).FindUsers = genManyUsers n := by
  show sortLe userLe ([] ++ genManyUsers n) = genManyUsers n
  rw [List.nil_append]
  exact sortLe_map_range_id _ _ fun i => rfl

theorem findUsers_largeDb (nsize : Nat) :
    (largeDb nsize).FindUsers = genLargeUsers nsize := by
  show sortLe userLe ([] ++ genLargeUsers nsize) = genLargeUsers nsize
  rw [List.nil_append]
  exact sortLe_map_range_id _ _ fun i => rfl

theorem findUsers_concurrentDb : concurrentDb.FindUsers = genConcurrentUsers := by
  show sortLe userLe ([] ++ genConcurrentUsers) = genConcurrentUsers
  rw [List.nil_append]
  exact sortLe_map_range_id _ _ fun i => rfl

theorem length_genSimpleUsers (n : Nat) : (genSimpleUsers n).length = n := by
  unfold genSimpleUsers
  rw [List.length_map, List.length_range]

theorem length_genManyUsers (n : Nat) : (genManyUsers n).length = n := by
  unfold genManyUsers
  rw [List.length_map, List.length_range]

theorem length_genLargeUsers (nsize : Nat) : (genLargeUsers nsize).length = 10000 := by
  unfold genLargeUsers
  rw [List.length_map, List.length_range]

theorem length_genConcurrentUsers : genConcurrentUsers.length = 1000000 := by
  unfold genConcurrentUsers
  rw [List.length_map, List.length_range]

/-! ### The complex scenario's generated rows -/

theorem length_genComplexUsers (n : Nat) : (genComplexUsers n).length = n := by
  unfold genComplexUsers
  rw [List.length_map, List.length_range]

theorem length_genComplexArticles (n A : Nat) :
    (genComplexArticles n A).length = n * A := by
  simp [genComplexArticles, List.length_flatMap, Function.comp_def, List.map_const',
    List.sum_replicate, smul_eq_mul]

theorem length_genComplexComments (n A C : Nat) :
    (genComplexComments n A C).length = n * A * C := by
  simp only [genComplexComments, List.length_flatMap, Function.comp_def, List.length_map,
    List.length_range, List.map_const', List.sum_replicate, smul_eq_mul]
  ring

theorem genComplexArticles_mem {n A : Nat} {art : Article}
    (h : art ∈ genComplexArticles n A) :
    ∃ u a, u < n ∧ a < A ∧ art = complexArticle A u a := by
  simp only [genComplexArticles, List.mem_flatMap, List.mem_map, List.mem_range] at h
  obtain ⟨u, hu, a, ha, rfl⟩ := h
  exact ⟨u, a, hu, ha, rfl⟩

theorem genComplexComments_mem {n A C : Nat} {com : Comment}
    (h : com ∈ genComplexComments n A C) :
    ∃ u a c, u < n ∧ a < A ∧ c < C ∧ com = complexComment A C u a c := by
  simp only [genComplexComments, List.mem_flatMap, List.mem_map, List.mem_range] at h
  obtain ⟨u, hu, a, ha, c, hc, rfl⟩ := h
  exact ⟨u, a, c, hu, ha, hc, rfl⟩

/-- Quotient extraction for block-shaped ids. -/
theorem block_div {u a A : Nat} (ha : a < A) : (u * A + a + 1 - 1) / A = u := by
  have hA : 0 < A := by omega
  rw [Nat.add_sub_cancel, show u * A + a = a + A * u from by ring,
    Nat.add_mul_div_left _ _ hA, Nat.div_eq_of_lt ha, Nat.zero_add]

/-- Every generated article's `UserId` is the closed form
`(Id - 1) / narticlesPerUser + 1` and lies in `[1, nusers]`. -/
theorem genComplexArticles_userId_closed {n A : Nat} {art : Article}
    (h : art ∈ genComplexArticles n A) :
    art.UserId = (art.Id - 1) / A + 1 ∧ 1 ≤ art.UserId ∧ art.UserId ≤ n := by
  obtain ⟨u, a, hu, ha, rfl⟩ := genComplexArticles_mem h
  simp only [complexArticle, NewArticle]
  rw [block_div ha]
  omega

/-- Every generated comment's `ArticleId` is the closed form
`(Id - 1) / ncommentsPerArticle + 1` and lies in
`[1, nusers * narticlesPerUser]`. -/
theorem genComplexComments_articleId_closed {n A C : Nat} {com : Comment}
    (h : com ∈ genComplexComments n A C) :
    com.ArticleId = (com.Id - 1) / C + 1 ∧ 1 ≤ com.ArticleId ∧ com.ArticleId ≤ n * A := by
  obtain ⟨u, a, c, hu, ha, hc, rfl⟩ := genComplexComments_mem h
  simp only [complexComment, NewComment]
  rw [block_div hc]
  refine ⟨rfl, by omega, ?_⟩
  calc u * A + a + 1 ≤ u * A + A := by omega
  _ = (u + 1) * A := by ring
  _ ≤ n * A := Nat.mul_le_mul_right A hu

theorem genComplexArticles_userId_pairwise (n A : Nat) :
    (genComplexArticles n A).Pairwise fun x y => x.UserId ≤ y.UserId := by
  unfold genComplexArticles
  rw [List.pairwise_flatMap]
  constructor
  · intro u hu
    rw [List.pairwise_map]
    exact (List.pairwise_lt_range A).imp fun _ => by simp [complexArticle, NewArticle]
  · apply (List.pairwise_lt_range n).imp
    intro u v huv x hx y hy
    simp only [List.mem_map, List.mem_range] at hx hy
    obtain ⟨a, ha, rfl⟩ := hx
    obtain ⟨b, hb, rfl⟩ := hy
    simp only [complexArticle, NewArticle]
    omega

theorem genComplexComments_articleId_pairwise (n A C : Nat) :
    (genComplexComments n A C).Pairwise fun x y => x.ArticleId ≤ y.ArticleId := by
  unfold genComplexComments
  rw [List.pairwise_flatMap]
  constructor
  · intro u hu
    rw [List.pairwise_flatMap]
    constructor
    · intro a ha
      rw [List.pairwise_map]
      exact (List.pairwise_lt_range C).imp fun _ => by simp [complexComment, NewComment]
    · apply (List.pairwise_lt_range A).imp
      intro a b hab x hx y hy
      simp only [List.mem_map, List.mem_range] at hx hy
      obtain ⟨c, hc, rfl⟩ := hx
      obtain ⟨d, hd, rfl⟩ := hy
      simp only [complexComment, NewComment]
      omega
  · apply (List.pairwise_lt_range n).imp
    intro u v huv x hx y hy
    simp only [List.mem_flatMap, List.mem_map, List.mem_range] at hx hy
    obtain ⟨a, ha, c, hc, rfl⟩ := hx
    obtain ⟨b, hb, d, hd, rfl⟩ := hy
    simp only [complexComment, NewComment]
    have h1 : u * A + a + 1 ≤ (u + 1) * A := by
      calc u * A + a + 1 ≤ u * A + A := by omega
      _ = (u + 1) * A := by ring
    have h2 : (u + 1) * A ≤ v * A := Nat.mul_le_mul_right A huv
    omega

/-! ### The complex scenario's join stream -/

/-- The join records contributed by article `a` of user `u`: one per
comment of that article. -/
def complexArticleRows (A C u a : Nat) : List JoinRow :=
  (List.range C).map fun c =>
    (complexUser u, complexArticle A u a, complexComment A C u a c)

/-- The join records contributed by user `u`. -/
def complexUserRows (A C u : Nat) : List JoinRow :=
  (List.range A).flatMap fun a => complexArticleRows A C u a

/-- The full join stream of the complex scenario, in generation order
(one record per comment, grouped by user, then article). -/
def complexJoinStream (n A C : Nat) : List JoinRow :=
  (List.range n).flatMap fun u => complexUserRows A C u

theorem flatMap_congr {α β : Type} {l : List α} {f g : α → List β}
    (h : ∀ a ∈ l, f a = g a) : l.flatMap f = l.flatMap g := by
  induction l with
  | nil => rfl
  | cons x xs ih =>
    rw [List.flatMap_cons, List.flatMap_cons, h x (List.mem_cons_self x xs),
      ih fun a ha => h a (List.mem_cons_of_mem x ha)]

theorem flatMap_range_eq_single {α : Type} {g : Nat → List α} {u n : Nat} (hu : u < n)
    (h : ∀ v, v < n → v ≠ u → g v = []) : (List.range n).flatMap g = g u := by
  induction n with
  | zero => omega
  | succ m ih =>
    rw [List.range_succ, List.flatMap_append, List.flatMap_singleton]
    by_cases hum : u = m
    · subst hum
      have hnil : (List.range u).flatMap g = [] := by
        rw [List.flatMap_eq_nil_iff]
        intro v hv
        rw [List.mem_range] at hv
        exact h v (by omega) (by omega)
      rw [hnil, List.nil_append]
    · rw [ih (by omega) fun v hv hvu => h v (by omega) hvu,
        h m (by omega) fun he => hum he.symm, List.append_nil]

/-- Uniqueness of the `(u, a)` encoding `u * A + a` with `a < A`. -/
theorem block_id_inj {A u a v b : Nat} (ha : a < A) (hb : b < A)
    (h : v * A + b = u * A + a) : v = u ∧ b = a := by
  have hA : 0 < A := by omega
  have h1 : (v * A + b) / A = v := by
    rw [show v * A + b = b + A * v from by ring, Nat.add_mul_div_left _ _ hA,
      Nat.div_eq_of_lt hb, Nat.zero_add]
  have h2 : (u * A + a) / A = u := by
    rw [show u * A + a = a + A * u from by ring, Nat.add_mul_div_left _ _ hA,
      Nat.div_eq_of_lt ha, Nat.zero_add]
  have hv : v = u := by rw [← h1, h, h2]
  subst hv
  exact ⟨rfl, by omega⟩

/-- The articles matching `articles.userId = users.id` for generated
user `u` are exactly user `u`'s generated block. -/
theorem filter_genComplexArticles {n A u : Nat} (hu : u < n) :
    ((genComplexArticles n A).filter fun a => a.UserId == u + 1)
      = (List.range A).map (complexArticle A u) := by
  unfold genComplexArticles
  rw [List.filter_flatMap]
  have inner : ∀ v, (((List.range A).map (complexArticle A v)).filter
      fun a => a.UserId == u + 1)
      = if v = u then (List.range A).map (complexArticle A v) else [] := by
    intro v
    by_cases hvu : v = u
    · subst hvu
      rw [if_pos rfl, List.filter_eq_self]
      intro a ha
      simp only [List.mem_map] at ha
      obtain ⟨i, hi, rfl⟩ := ha
      simp [complexArticle, NewArticle]
    · rw [if_neg hvu, List.filter_eq_nil_iff]
      intro a ha
      simp only [List.mem_map] at ha
      obtain ⟨i, hi, rfl⟩ := ha
      simp only [complexArticle, NewArticle, beq_iff_eq]
      omega
  rw [flatMap_range_eq_single hu fun v _ hvu => by rw [inner v, if_neg hvu],
    inner u, if_pos rfl]

/-- The comments matching `comments.articleId = articles.id` for
generated article `(u, a)` are exactly that article's generated block. -/
theorem filter_genComplexComments {n A C u a : Nat} (hu : u < n) (ha : a < A) :
    ((genComplexComments n A C).filter fun c => c.ArticleId == u * A + a + 1)
      = (List.range C).map (complexComment A C u a) := by
  unfold genComplexComments
  rw [List.filter_flatMap]
  have blockv : ∀ v, (((List.range A).flatMap fun b =>
        (List.range C).map (complexComment A C v b)).filter
        fun c => c.ArticleId == u * A + a + 1)
      = if v = u then (List.range C).map (complexComment A C u a) else [] := by
    intro v
    rw [List.filter_flatMap]
    by_cases hvu : v = u
    · subst hvu
      rw [if_pos rfl]
      rw [flatMap_range_eq_single ha fun b hb hba => ?_]
      · rw [List.filter_eq_self]
        intro c hc
        simp only [List.mem_map] at hc
        obtain ⟨i, hi, rfl⟩ := hc
        simp [complexComment, NewComment]
      · rw [List.filter_eq_nil_iff]
        intro c hc
        simp only [List.mem_map] at hc
        obtain ⟨i, hi, rfl⟩ := hc
        simp only [complexComment, NewComment, beq_iff_eq]
        omega
    · rw [if_neg hvu, List.flatMap_eq_nil_iff]
      intro b hb
      rw [List.mem_range] at hb
      rw [List.filter_eq_nil_iff]
      intro c hc
      simp only [List.mem_map] at hc
      obtain ⟨i, hi, rfl⟩ := hc
      simp only [complexComment, NewComment, beq_iff_eq]
      intro heq
      exact hvu (block_id_inj ha hb (by omega)).1
  rw [flatMap_range_eq_single hu fun v _ hvu => by rw [blockv v, if_neg hvu],
    blockv u, if_pos rfl]

theorem complexDb_eq (n A C : Nat) :
    complexDb n A C
      = ⟨genComplexUsers n, genComplexArticles n A, genComplexComments n A C⟩ := by
  simp [complexDb, emptyDb, DbState.InsertUsers, DbState.InsertArticles,
    DbState.InsertComments]

/-- The join stream of the seeded complex store is exactly the nested
generation-order stream. -/
theorem joinRows_complexDb (n A C : Nat) :
    joinRows (complexDb n A C) = complexJoinStream n A C := by
  rw [complexDb_eq]
  unfold joinRows complexJoinStream
  show (genComplexUsers n).flatMap _ = _
  unfold genComplexUsers
  rw [List.flatMap_map]
  apply flatMap_congr
  intro u hu
  rw [List.mem_range] at hu
  show ((genComplexArticles n A).filter fun a => a.UserId == (complexUser u).Id).flatMap _
      = complexUserRows A C u
  have hid : (complexUser u).Id = u + 1 := rfl
  rw [hid, filter_genComplexArticles hu, List.flatMap_map]
  unfold complexUserRows
  apply flatMap_congr
  intro a ha
  rw [List.mem_range] at ha
  show ((genComplexComments n A C).filter
      fun c => c.ArticleId == (complexArticle A u a).Id).map _ = complexArticleRows A C u a
  have haid : (complexArticle A u a).Id = u * A + a + 1 := rfl
  rw [haid, filter_genComplexComments hu ha, List.map_map]
  rfl

/-- The generation-order join stream already satisfies the query's
ORDER BY: user timestamps ascend strictly with `u`, article timestamps
ascend within a user, comment timestamps within an article. -/
theorem complexJoinStream_pairwise (n A C : Nat) :
    (complexJoinStream n A C).Pairwise fun x y => rowLe x y = true := by
  unfold complexJoinStream complexUserRows
  rw [List.pairwise_flatMap]
  constructor
  · intro u hu
    rw [List.pairwise_flatMap]
    constructor
    · intro a ha
      unfold complexArticleRows
      rw [List.pairwise_map]
      apply (List.pairwise_lt_range C).imp
      intro c d hcd
      simp only [rowLe, complexUser, complexArticle, complexComment, NewUser, NewArticle,
        NewComment, complexUserCreated, complexArticleCreated, complexCommentCreated,
        GoTime.addNanos, baseTime, timeMinute, timeSecond, timeMillisecond,
        Bool.or_eq_true, Bool.and_eq_true, decide_eq_true_eq]
      exact Or.inr ⟨trivial, Or.inr ⟨trivial, by omega⟩⟩
    · apply (List.pairwise_lt_range A).imp
      intro a b hab x hx y hy
      unfold complexArticleRows at hx hy
      simp only [List.mem_map, List.mem_range] at hx hy
      obtain ⟨c, hc, rfl⟩ := hx
      obtain ⟨d, hd, rfl⟩ := hy
      simp only [rowLe, complexUser, complexArticle, complexComment, NewUser, NewArticle,
        NewComment, complexUserCreated, complexArticleCreated, complexCommentCreated,
        GoTime.addNanos, baseTime, timeMinute, timeSecond, timeMillisecond,
        Bool.or_eq_true, Bool.and_eq_true, decide_eq_true_eq]
      exact Or.inr ⟨trivial, Or.inl (by omega)⟩
  · apply (List.pairwise_lt_range n).imp
    intro u v huv x hx y hy
    unfold complexArticleRows at hx hy
    simp only [List.mem_flatMap, List.mem_map, List.mem_range] at hx hy
    obtain ⟨a, ha, c, hc, rfl⟩ := hx
    obtain ⟨b, hb, d, hd, rfl⟩ := hy
    simp only [rowLe, complexUser, complexArticle, complexComment, NewUser, NewArticle,
      NewComment, complexUserCreated, complexArticleCreated, complexCommentCreated,
      GoTime.addNanos, baseTime, timeMinute, timeSecond, timeMillisecond,
      Bool.or_eq_true, Bool.and_eq_true, decide_eq_true_eq]
    exact Or.inl (by omega)

theorem sortLe_complexJoinStream (n A C : Nat) :
    sortLe rowLe (complexJoinStream n A C) = complexJoinStream n A C :=
  sortLe_of_pairwise _ _ (complexJoinStream_pairwise n A C)

/-! ### The streaming accumulator on a block-structured stream -/

/-- Records sharing the current user and article contribute only their
comments: the accumulator appends no parent. -/
theorem recon_comment_rows (u : User) (a : Article) (cs : List Comment)
    (rest : List JoinRow) :
    recon u.Id a.Id ((cs.map fun c => (u, a, c)) ++ rest)
      = ((recon u.Id a.Id rest).1, (recon u.Id a.Id rest).2.1,
         cs ++ (recon u.Id a.Id rest).2.2) := by
  induction cs with
  | nil => simp
  | cons c cs' ih =>
    simp only [List.map_cons, List.cons_append]
    simp [recon, ih]

/-- One fresh article block: the article is appended once, the user
only if its id differs from the last-seen user id. -/
theorem recon_article_block (lastU lastA : Nat) (u : User) (a : Article)
    (c0 : Comment) (cs : List Comment) (rest : List JoinRow) (hA : a.Id ≠ lastA) :
    recon lastU lastA (((c0 :: cs).map fun c => (u, a, c)) ++ rest)
      = ((if u.Id = lastU then (recon u.Id a.Id rest).1
            else u :: (recon u.Id a.Id rest).1),
         a :: (recon u.Id a.Id rest).2.1,
         (c0 :: cs) ++ (recon u.Id a.Id rest).2.2) := by
  simp only [List.map_cons, List.cons_append]
  simp [recon, recon_comment_rows, if_neg hA]

theorem complexArticleRows_eq_map (A C u a : Nat) :
    complexArticleRows A C u a
      = ((List.range C).map (complexComment A C u a)).map
          fun c => (complexUser u, complexArticle A u a, c) := by
  rw [List.map_map]
  rfl

/-- A run of `k ≥ 1` consecutive article blocks of one user `u`,
starting at article index `a0`, with every article id above the
last-seen article id: the accumulator emits the user at most once, all
`k` articles, and all their comments, and continues with last-seen ids
`u + 1` and `u * A + a0 + k`. -/
theorem recon_user_articles (A C u : Nat) (hC : 0 < C) :
    ∀ k, 0 < k → ∀ (a0 lastU lastA : Nat) (rest : List JoinRow),
      lastA < u * A + a0 + 1 →
      recon lastU lastA
          (((List.range' a0 k).flatMap fun a => complexArticleRows A C u a) ++ rest)
        = ((if u + 1 = lastU
              then (recon (u + 1) (u * A + a0 + k) rest).1
              else complexUser u :: (recon (u + 1) (u * A + a0 + k) rest).1),
           (List.range' a0 k).map (complexArticle A u)
             ++ (recon (u + 1) (u * A + a0 + k) rest).2.1,
           ((List.range' a0 k).flatMap fun a => (List.range C).map (complexComment A C u a))
             ++ (recon (u + 1) (u * A + a0 + k) rest).2.2) := by
  intro k
  induction k with
  | zero => omega
  | succ k' ih =>
    intro _ a0 lastU lastA rest hlast
    obtain ⟨c0, cs, hcs⟩ : ∃ c0 cs, (List.range C).map (complexComment A C u a0) = c0 :: cs := by
      have : (List.range C).map (complexComment A C u a0) ≠ [] := by
        simp only [ne_eq, List.map_eq_nil_iff, List.range_eq_nil]
        omega
      exact List.exists_cons_of_ne_nil this
    have hfresh : (complexArticle A u a0).Id ≠ lastA := by
      show u * A + a0 + 1 ≠ lastA
      omega
    rcases Nat.eq_zero_or_pos k' with hk' | hk'
    · subst hk'
      rw [List.range'_succ]
      simp only [List.range'_eq_nil.mpr rfl, List.flatMap_cons, List.flatMap_nil,
        List.append_nil, List.map_cons, List.map_nil]
      rw [complexArticleRows_eq_map, hcs,
        recon_article_block lastU lastA _ _ _ _ rest hfresh, ← hcs]
      have hu : (complexUser u).Id = u + 1 := rfl
      have ha : (complexArticle A u a0).Id = u * A + a0 + 1 := rfl
      rw [hu, ha]
      rfl
    · rw [List.range'_succ]
      simp only [List.flatMap_cons]
      rw [List.append_assoc, complexArticleRows_eq_map, hcs,
        recon_article_block lastU lastA _ _ _ _ _ hfresh, ← hcs]
      have hu : (complexUser u).Id = u + 1 := rfl
      have ha : (complexArticle A u a0).Id = u * A + a0 + 1 := rfl
      rw [hu, ha, ih hk' (a0 + 1) (u + 1) (u * A + a0 + 1) rest (by omega)]
      have harith : u * A + (a0 + 1) + k' = u * A + a0 + (k' + 1) := by omega
      rw [harith, if_pos rfl]
      simp only [List.map_cons, List.cons_append, List.flatMap_cons, List.append_assoc]

/-- A run of `k ≥ 1` consecutive whole-user blocks starting at user
index `u0`: the accumulator emits all `k` users, their articles and
comments, and continues with last-seen ids `u0 + k` and
`(u0 + k) * A`. -/
theorem recon_users_blocks (A C : Nat) (hA : 0 < A) (hC : 0 < C) :
    ∀ k, 0 < k → ∀ (u0 lastU lastA : Nat) (rest : List JoinRow),
      lastU < u0 + 1 → lastA < u0 * A + 1 →
      recon lastU lastA
          (((List.range' u0 k).flatMap fun u => complexUserRows A C u) ++ rest)
        = ((List.range' u0 k).map complexUser
             ++ (recon (u0 + k) ((u0 + k) * A) rest).1,
           ((List.range' u0 k).flatMap fun u => (List.range A).map (complexArticle A u))
             ++ (recon (u0 + k) ((u0 + k) * A) rest).2.1,
           ((List.range' u0 k).flatMap fun u =>
               (List.range A).flatMap fun a => (List.range C).map (complexComment A C u a))
             ++ (recon (u0 + k) ((u0 + k) * A) rest).2.2) := by
  intro k
  induction k with
  | zero => omega
  | succ k' ih =>
    intro _ u0 lastU lastA rest hlastU hlastA
    have hblock : complexUserRows A C u0
        = (List.range' 0 A).flatMap fun a => complexArticleRows A C u0 a := by
      unfold complexUserRows
      rw [List.range_eq_range']
    have harticles : u0 * A + 0 + A = (u0 + 1) * A := by ring
    rcases Nat.eq_zero_or_pos k' with hk' | hk'
    · subst hk'
      rw [List.range'_succ]
      simp only [List.range'_eq_nil.mpr rfl, List.flatMap_cons, List.flatMap_nil,
        List.append_nil, List.map_cons, List.map_nil]
      rw [hblock, recon_user_articles A C u0 hC A hA 0 lastU lastA rest (by omega),
        if_neg (by omega), harticles]
      simp only [← List.range_eq_range']
      norm_num
    · rw [List.range'_succ]
      simp only [List.flatMap_cons]
      rw [List.append_assoc, hblock,
        recon_user_articles A C u0 hC A hA 0 lastU lastA _ (by omega),
        if_neg (by omega), harticles,
        ih hk' (u0 + 1) (u0 + 1) ((u0 + 1) * A) rest (by omega) (by omega)]
      have harith : u0 + 1 + k' = u0 + (k' + 1) := by omega
      rw [harith]
      simp only [← List.range_eq_range', List.map_cons, List.cons_append,
        List.flatMap_cons, List.append_assoc]

/-- The modelled complex-scenario query returns exactly the three
generated sequences, in generation order. -/
theorem complexQuery_eq (n A C : Nat) (hn : 0 < n) (hA : 0 < A) (hC : 0 < C) :
    (complexDb n A C).FindUsersArticlesComments
      = (genComplexUsers n, genComplexArticles n A, genComplexComments n A C) := by
  unfold DbState.FindUsersArticlesComments
  rw [joinRows_complexDb, sortLe_complexJoinStream]
  have hstream : complexJoinStream n A C
      = ((List.range' 0 n).flatMap fun u => complexUserRows A C u) ++ [] := by
    unfold complexJoinStream
    rw [List.range_eq_range', List.append_nil]
  rw [hstream, recon_users_blocks A C hA hC n hn 0 0 0 [] (by omega) (by omega)]
  show (_ ++ ([] : List User), _ ++ ([] : List Article), _ ++ ([] : List Comment)) = _
  rw [List.append_nil, List.append_nil, List.append_nil]
  unfold genComplexUsers genComplexArticles genComplexComments
  simp only [← List.range_eq_range']

/-! ## Validation loops

The per-row checks of each scenario (app.go 129-134, 221-251, 294-299,
336-341, 383-390).  `Must`/`MustBeEqual`/`MustBe` live outside the
available sources; modelled from the spec (section 7) as a boolean
verdict: `true` iff no check fails. -/

def defaultArticle : Article := ⟨0, ⟨0⟩, 0, ""⟩

def defaultComment : Comment := ⟨0, ⟨0⟩, 0, ""⟩

/-- Validation loop of `benchSimple` (app.go 129-134). -/
def validateSimple (users : List User) : Bool :=
  users.enum.all fun p =>
    (p.2.Id == p.1 + 1) &&
      (decide (2023 ≤ p.2.Created.Year) && decide (p.2.Created.Year ≤ 2025)) &&
      (goSlice p.2.Email 0 5 == "user0") && (p.2.Active == true)

/-- Validation loop of `benchMany` (app.go 294-299). -/
def validateMany (users : List User) : Bool :=
  users.enum.all fun p =>
    (p.2.Id == p.1 + 1) && (p.2.Created.Year == 2023) &&
      (goSlice p.2.Email 0 5 == "user0") && (p.2.Active == true)

/-- Validation loop of `benchLarge` (app.go 336-341). -/
def validateLarge (users : List User) : Bool :=
  users.enum.all fun p =>
    (p.2.Id == p.1 + 1) && (p.2.Created.Year == 2023) &&
      (goSlice p.2.Email 0 1 == "a") && (p.2.Active == true)

/-- Per-reader validation loop of `benchConcurrent` (app.go 385-390). -/
def validateConcurrentUsers (users : List User) : Bool :=
  users.enum.all fun p =>
    (p.2.Id == p.1 + 1) && (p.2.Created.Year == 2023) &&
      (goSlice p.2.Email 0 4 == "user") && (p.2.Active == true)

/-- User validation loop of `benchComplex` (app.go 224-229). -/
def validateComplexUsers (users : List User) : Bool :=
  users.enum.all fun p =>
    (p.2.Id == p.1 + 1) && (p.2.Created.Year == 2023) &&
      (goSlice p.2.Email 0 5 == "user0") && (p.2.Active == (p.1 % 2 == 0))

/-- Article validation loop of `benchComplex` (app.go 230-240),
including the predecessor monotonicity check. -/
def validateComplexArticles (n : Nat) (articles : List Article) : Bool :=
  articles.enum.all fun p =>
    (p.2.Id == p.1 + 1) && (p.2.Created.Year == 2023) &&
      decide (1 ≤ p.2.UserId) && decide (p.2.UserId ≤ 1 + n) &&
      (p.2.Text == "article text") &&
      (p.1 == 0 || decide ((articles.getD (p.1 - 1) defaultArticle).UserId ≤ p.2.UserId))

/-- Comment validation loop of `benchComplex` (app.go 241-251). -/
def validateComplexComments (nA : Nat) (comments : List Comment) : Bool :=
  comments.enum.all fun p =>
    (p.2.Id == p.1 + 1) && (p.2.Created.Year == 2023) &&
      decide (1 ≤ p.2.ArticleId) && decide (p.2.ArticleId ≤ 1 + nA) &&
      (p.2.Text == "comment text") &&
      (p.1 == 0 || decide ((comments.getD (p.1 - 1) defaultComment).ArticleId ≤ p.2.ArticleId))

/-! ## Scenario runs as functions of the wall clock

For the determinism claim the wall clock is made explicit: `clock i`
is the reading (in milliseconds) of the `i`-th `time.Now()` call of
the scenario.  Everything except the reported durations is computed
from the generators and the freshly seeded store alone. -/

structure SingleTableRun where
  inserted : List User
  insertMillis : Nat
  returned : List User
  queryMillis : Nat
  countOk : Bool
  rowsOk : Bool

/-- One run of `benchSimple` (app.go 97-139) from a fresh target. -/
def benchSimpleRun (clock : Nat → Nat) : SingleTableRun :=
  let users := genSimpleUsers simpleNUsers
  let db := emptyDb.InsertUsers users
  { inserted := users
    insertMillis := clock 1 - clock 0
    returned := db.FindUsers
    queryMillis := clock 3 - clock 2
    countOk := db.FindUsers.length == simpleNUsers
    rowsOk := validateSimple db.FindUsers }

/-- The query loop of `benchMany` (app.go 284-288): 1000 iterations,
each overwriting the `users` variable with a fresh query result. -/
def manyQueryLoop (db : DbState) (init : List User) : List User :=
  (List.range 1000).foldl (fun _ _ => db.FindUsers) init

/-- One run of `benchMany` (app.go 261-304) from a fresh target. -/
def benchManyRun (n : Nat) (clock : Nat → Nat) : SingleTableRun :=
  let users := genManyUsers n
  let db := emptyDb.InsertUsers users
  { inserted := users
    insertMillis := clock 1 - clock 0
    returned := manyQueryLoop db users
    queryMillis := clock 3 - clock 2
    countOk := db.FindUsers.length == n
    rowsOk := validateMany (manyQueryLoop db users) }

/-- One run of `benchLarge` (app.go 309-346) from a fresh target; the
insert phase of this scenario is not timed. -/
def benchLargeRun (nsize : Nat) (clock : Nat → Nat) : SingleTableRun :=
  let users := genLargeUsers nsize
  let db := emptyDb.InsertUsers users
  { inserted := users
    insertMillis := 0
    returned := db.FindUsers
    queryMillis := clock 1 - clock 0
    countOk := db.FindUsers.length == 10000
    rowsOk := validateLarge db.FindUsers }

structure ComplexRun where
  insertedUsers : List User
  insertedArticles : List Article
  insertedComments : List Comment
  insertMillis : Nat
  returnedUsers : List User
  returnedArticles : List Article
  returnedComments : List Comment
  queryMillis : Nat
  countOk : Bool
  rowsOk : Bool

/-- One run of `benchComplex` (app.go 145-256) from a fresh target. -/
def benchComplexRun (clock : Nat → Nat) : ComplexRun :=
  let n := complexNUsers
  let A := complexNArticlesPerUser
  let C := complexNCommentsPerArticle
  let db := complexDb n A C
  let r := db.FindUsersArticlesComments
  { insertedUsers := genComplexUsers n
    insertedArticles := genComplexArticles n A
    insertedComments := genComplexComments n A C
    insertMillis := clock 1 - clock 0
    returnedUsers := r.1
    returnedArticles := r.2.1
    returnedComments := r.2.2
    queryMillis := clock 3 - clock 2
    countOk := (r.1.length == n) && (r.2.1.length == n * A) && (r.2.2.length == n * A * C)
    rowsOk := validateComplexUsers r.1 && validateComplexArticles n r.2.1
      && validateComplexComments (n * A) r.2.2 }

structure ConcurrentRun where
  inserted : List User
  readerResults : List (List User)
  readerOks : List Bool
  queryMillis : Nat

/-- One run of `benchConcurrent` (app.go 351-403) from a fresh target:
the seed phase inserts, then each of the `ng` readers runs the same
query against the seeded store and validates what it read. -/
def benchConcurrentRun (ng : Nat) (clock : Nat → Nat) : ConcurrentRun :=
  let db := emptyDb.InsertUsers genConcurrentUsers
  { inserted := genConcurrentUsers
    readerResults := (List.range ng).map fun _ => db.FindUsers
    readerOks := (List.range ng).map fun _ =>
      (db.FindUsers.length == concurrentNUsers) && validateConcurrentUsers db.FindUsers
    queryMillis := clock 1 - clock 0 }

/-! ## The reader goroutine closure of `benchConcurrent`

The outer function declares `var users []User` (app.go line 358); the
goroutine body (lines 374-391) executes `users = db.FindUsers(...)` —
an assignment to that captured variable, not a declaration of a local
one — and then validates by ranging over the same variable.  The
model makes the captured environment explicit. -/

structure ConcurrentShared where
  users : List User
deriving DecidableEq, Repr

/-- The body of one reader goroutine (app.go 374-391) acting on the
closure-captured shared environment: it writes its query result into
the shared `users` variable and computes its validation verdict by
reading that variable back. -/
def readerBody (db : DbState) (s : ConcurrentShared) : ConcurrentShared × Bool :=
  let s' : ConcurrentShared := { s with users := db.FindUsers }
  (s', (s'.users.length == concurrentNUsers) && validateConcurrentUsers s'.users)

/-! ## Event traces of `benchConcurrent`

The ordering claim of the concurrent scenario is about happens-before
structure, embedded as the set of possible event traces.  Go program
order forces the writer's open (line 353), insert (367) and close
(368) to precede every `go` statement (372-391), and each reader's own
events to occur in its body order; reader events of different readers
interleave arbitrarily. -/

inductive ConcEvent where
  | writerOpen
  | writerInsert
  | writerClose
  | readerOpen (i : Nat)
  | readerQuery (i : Nat)
  | readerClose (i : Nat)
deriving DecidableEq, Repr

/-- The seed phase, in program order: `makeDb`, `InsertUsers`, `Close`. -/
def writerPhase : List ConcEvent := [.writerOpen, .writerInsert, .writerClose]

def isReaderEvent : ConcEvent → Bool
  | .readerOpen _ | .readerQuery _ | .readerClose _ => true
  | _ => false

def readerEventOf (i : Nat) : ConcEvent → Bool
  | .readerOpen j => j == i
  | .readerQuery j => j == i
  | .readerClose j => j == i
  | _ => false

/-- The possible traces of `benchConcurrent` with `n` readers: the
complete writer phase first, then an interleaving of the readers'
event sequences in which each reader `i < n` opens, queries, closes in
its body order. -/
def IsConcTrace (n : Nat) (t : List ConcEvent) : Prop :=
  ∃ rp, t = writerPhase ++ rp ∧ (∀ e ∈ rp, isReaderEvent e = true) ∧
    ∀ i, i < n →
      rp.filter (readerEventOf i) = [.readerOpen i, .readerQuery i, .readerClose i]

/-! ## Process entry (`Run`, app.go 14-60) -/

inductive BenchCall where
  | simple
  | complex
  | many (nusers : Nat)
  | large (nsize : Nat)
  | concurrent (ngoroutines : Nat)
deriving DecidableEq, Repr

inductive RunOutcome where
  | fatal (msg : String)
  | ran (calls : List BenchCall)
deriving DecidableEq, Repr

/-- The benchmark sequence `Run` executes when the argument is usable:
every group of the `benchmarks` map is enabled (app.go 31-59). -/
def allBenchCalls : List BenchCall :=
  [.simple, .complex, .many 10, .many 100, .many 1000,
    .large 50000, .large 100000, .large 200000,
    .concurrent 2, .concurrent 4, .concurrent 8]

/-- `Run`: `dbfile := flag.Arg(0)`; an empty value dies fatally with
`dbfile empty, cannot bench` before any benchmark work; otherwise the
benchmarks run in order (app.go 22-59). -/
def RunModel (dbfile : String) : RunOutcome :=
  if dbfile = "" then .fatal "dbfile empty, cannot bench" else .ran allBenchCalls

/-! ## Report lines (`log.Printf`, app.go 136-138, 252-255, 300-303,
342-345, 399-402)

Verbs used: `%20s` and `%12s` right-justify a string in a field of the
given width, `%12d` right-justifies the decimal rendering of an
integer; columns are separated by single spaces. -/

/-- Right-justification to width `w` with spaces. -/
def padCharsL (w : Nat) (l : List Char) : List Char :=
  List.replicate (w - l.length) ' ' ++ l

/-- Go `%ws` on a string. -/
def fmtS (w : Nat) (s : String) : String := ⟨padCharsL w s.data⟩

/-- Go `%wd` on a non-negative integer. -/
def fmtD (w n : Nat) : String := ⟨padCharsL w (natDigits n)⟩

def simpleLabel : String := "simple"

/-- `fmt.Sprintf("complex/%d/%d/%d", nusers, narticlesPerUser,
ncommentsPerArticle)`. -/
def complexLabel : String :=
  "complex/" ++ natStr complexNUsers ++ "/" ++ natStr complexNArticlesPerUser
    ++ "/" ++ natStr complexNCommentsPerArticle

/-- `fmt.Sprintf("many/N=%d", nusers)`. -/
def manyLabel (n : Nat) : String := "many/N=" ++ natStr n

/-- `fmt.Sprintf("large/N=%d", nsize)`. -/
def largeLabel (nsize : Nat) : String := "large/N=" ++ natStr nsize

/-- `fmt.Sprintf("concurrent/N=%d", ngoroutines)`. -/
def concurrentLabel (ng : Nat) : String := "concurrent/N=" ++ natStr ng

/-- Header line of `benchSimple` and `benchComplex`:
`"%20s %12s %12s %12s", label, "insert", "query", "dbsize"`. -/
def headerLine4 (label : String) : String :=
  fmtS 20 label ++ " " ++ fmtS 12 "insert" ++ " " ++ fmtS 12 "query"
    ++ " " ++ fmtS 12 "dbsize"

/-- Data line of `benchSimple` and `benchComplex`:
`"%20s %12d %12d %12d", label, insertMillis, queryMillis, dbsize`. -/
def dataLine4 (label : String) (ins qu sz : Nat) : String :=
  fmtS 20 label ++ " " ++ fmtD 12 ins ++ " " ++ fmtD 12 qu ++ " " ++ fmtD 12 sz

/-- Header line of `benchMany`, `benchLarge` and `benchConcurrent`:
`"%20s %12s %12s", label, "query", "dbsize"`. -/
def headerLine3 (label : String) : String :=
  fmtS 20 label ++ " " ++ fmtS 12 "query" ++ " " ++ fmtS 12 "dbsize"

/-- Data line of `benchMany`, `benchLarge` and `benchConcurrent`:
`"%20s %12d %12d", label, queryMillis, dbsize`. -/
def dataLine3 (label : String) (qu sz : Nat) : String :=
  fmtS 20 label ++ " " ++ fmtD 12 qu ++ " " ++ fmtD 12 sz

/-- The values `benchSimple` passes to its data-line `log.Printf`
(app.go 138), rendered. -/
def simpleDataArgs (ins qu sz : Nat) : List String :=
  [simpleLabel, natStr ins, natStr qu, natStr sz]

/-- The values `benchComplex` passes to its data-line `log.Printf`
(app.go 255), rendered. -/
def complexDataArgs (ins qu sz : Nat) : List String :=
  [complexLabel, natStr ins, natStr qu, natStr sz]

/-- The values `benchMany` passes to its data-line `log.Printf`
(app.go 303), rendered: no insert duration is reported. -/
def manyDataArgs (n qu sz : Nat) : List String := [manyLabel n, natStr qu, natStr sz]

/-- The values `benchLarge` passes to its data-line `log.Printf`
(app.go 345), rendered: no insert duration is reported. -/
def largeDataArgs (nsize qu sz : Nat) : List String :=
  [largeLabel nsize, natStr qu, natStr sz]

/-- The values `benchConcurrent` passes to its data-line `log.Printf`
(app.go 402), rendered: no insert duration is reported. -/
def concurrentDataArgs (ng qu sz : Nat) : List String :=
  [concurrentLabel ng, natStr qu, natStr sz]

theorem manyQueryLoop_eq (db : DbState) (init : List User) :
    manyQueryLoop db init = db.FindUsers := by
  unfold manyQueryLoop
  rw [show (1000 : Nat) = 999 + 1 from rfl, List.range_succ, List.foldl_append]
  rfl

theorem fmtS_length {w : Nat} {s : String} (h : s.data.length ≤ w) :
    (fmtS w s).length = w := by
  show (padCharsL w s.data).length = w
  unfold padCharsL
  simp only [List.length_append, List.length_replicate]
  omega

theorem fmtD_length {w n : Nat} (h : (natDigits n).length ≤ w) :
    (fmtD w n).length = w := by
  show (padCharsL w (natDigits n)).length = w
  unfold padCharsL
  simp only [List.length_append, List.length_replicate]
  omega

theorem headerLine4_length {label : String} (h : label.data.length ≤ 20) :
    (headerLine4 label).length = 59 := by
  unfold headerLine4
  rw [String.length_append, String.length_append, String.length_append,
    String.length_append, String.length_append, String.length_append,
    fmtS_length h, fmtS_length (by decide), fmtS_length (by decide),
    fmtS_length (by decide)]
  decide

theorem dataLine4_length {label : String} {ins qu sz : Nat} (h : label.data.length ≤ 20)
    (hins : ins < 10 ^ 12) (hqu : qu < 10 ^ 12) (hsz : sz < 10 ^ 12) :
    (dataLine4 label ins qu sz).length = 59 := by
  unfold dataLine4
  rw [String.length_append, String.length_append, String.length_append,
    String.length_append, String.length_append, String.length_append,
    fmtS_length h, fmtD_length (natDigits_length_le_of_lt (by norm_num) hins),
    fmtD_length (natDigits_length_le_of_lt (by norm_num) hqu),
    fmtD_length (natDigits_length_le_of_lt (by norm_num) hsz)]
  decide

theorem headerLine3_length {label : String} (h : label.data.length ≤ 20) :
    (headerLine3 label).length = 46 := by
  unfold headerLine3
  rw [String.length_append, String.length_append, String.length_append,
    String.length_append, fmtS_length h, fmtS_length (by decide),
    fmtS_length (by decide)]
  decide

theorem dataLine3_length {label : String} {qu sz : Nat} (h : label.data.length ≤ 20)
    (hqu : qu < 10 ^ 12) (hsz : sz < 10 ^ 12) :
    (dataLine3 label qu sz).length = 46 := by
  unfold dataLine3
  rw [String.length_append, String.length_append, String.length_append,
    String.length_append, fmtS_length h,
    fmtD_length (natDigits_length_le_of_lt (by norm_num) hqu),
    fmtD_length (natDigits_length_le_of_lt (by norm_num) hsz)]
  decide

theorem manyLabel_data_length {n : Nat} (h : n < 10 ^ 12) :
    (manyLabel n).data.length ≤ 20 := by
  unfold manyLabel natStr
  rw [String.data_append, List.length_append]
  have := natDigits_length_le_of_lt (by norm_num) h
  have h7 : ("many/N=" : String).data.length = 7 := by decide
  have hmk : (String.mk (natDigits n)).data.length = (natDigits n).length := rfl
  omega

theorem largeLabel_data_length {n : Nat} (h : n < 10 ^ 12) :
    (largeLabel n).data.length ≤ 20 := by
  unfold largeLabel natStr
  rw [String.data_append, List.length_append]
  have := natDigits_length_le_of_lt (by norm_num) h
  have h6 : ("large/N=" : String).data.length = 8 := by decide
  have hmk : (String.mk (natDigits n)).data.length = (natDigits n).length := rfl
  omega

theorem concurrentLabel_data_length {n : Nat} (h : n < 10 ^ 6) :
    (concurrentLabel n).data.length ≤ 20 := by
  unfold concurrentLabel natStr
  rw [String.data_append, List.length_append]
  have := natDigits_length_le_of_lt (by norm_num) h
  have h13 : ("concurrent/N=" : String).data.length = 13 := by decide
  have hmk : (String.mk (natDigits n)).data.length = (natDigits n).length := rfl
  omega

/-! ## Claims -/

/-- C1: for every scenario the number of rows returned by the
scenario's query equals the number of rows generated and inserted by
the matching generator call: `benchSimple` and `benchConcurrent`
compare against 1000000, `benchMany` against its `nusers` parameter,
`benchLarge` against 10000, and `benchComplex` against 200 users,
20000 articles and 400000 comments. -/
theorem spec_c1_row_count_round_trip :
    (simpleDb.FindUsers.length = (genSimpleUsers simpleNUsers).length
      ∧ simpleDb.FindUsers.length = 1000000)
    ∧ (∀ n : Nat, (manyDb n).FindUsers.length = (genManyUsers n).length
      ∧ (manyDb n).FindUsers.length = n)
    ∧ (∀ nsize : Nat, (largeDb nsize).FindUsers.length = (genLargeUsers nsize).length
      ∧ (largeDb nsize).FindUsers.length = 10000)
    ∧ (concurrentDb.FindUsers.length = genConcurrentUsers.length
      ∧ concurrentDb.FindUsers.length = 1000000)
    ∧ ((complexDb 200 100 20).FindUsersArticlesComments.1.length
        = (genComplexUsers 200).length
      ∧ (complexDb 200 100 20).FindUsersArticlesComments.1.length = 200
      ∧ (complexDb 200 100 20).FindUsersArticlesComments.2.1.length
        = (genComplexArticles 200 100).length
      ∧ (complexDb 200 100 20).FindUsersArticlesComments.2.1.length = 20000
      ∧ (complexDb 200 100 20).FindUsersArticlesComments.2.2.length
        = (genComplexComments 200 100 20).length
      ∧ (complexDb 200 100 20).FindUsersArticlesComments.2.2.length = 400000) := by
  have hc := complexQuery_eq 200 100 20 (by norm_num) (by norm_num) (by norm_num)
  refine ⟨⟨?_, ?_⟩, fun n => ⟨?_, ?_⟩, fun nsize => ⟨?_, ?_⟩, ⟨?_, ?_⟩, ?_⟩
  · rw [findUsers_simpleDb]
  · rw [findUsers_simpleDb, length_genSimpleUsers]
    rfl
  · rw [findUsers_manyDb]
  · rw [findUsers_manyDb, length_genManyUsers]
  · rw [findUsers_largeDb]
  · rw [findUsers_largeDb, length_genLargeUsers]
  · rw [findUsers_concurrentDb]
  · rw [findUsers_concurrentDb, length_genConcurrentUsers]
  · rw [hc]
    refine ⟨rfl, ?_, rfl, ?_, rfl, ?_⟩
    · show (genComplexUsers 200).length = 200
      rw [length_genComplexUsers]
    · show (genComplexArticles 200 100).length = 20000
      rw [length_genComplexArticles]
    · show (genComplexComments 200 100 20).length = 400000
      rw [length_genComplexComments]

/-- C3: in the complex scenario the three sequences reconstructed from
the flattened join have lengths exactly 200, 20000 and 400000, the
article sequence has non-decreasing `UserId`, and the comment sequence
has non-decreasing `ArticleId`. -/
theorem spec_c3_complex_join_shape :
    (complexDb 200 100 20).FindUsersArticlesComments.1.length = 200
    ∧ (complexDb 200 100 20).FindUsersArticlesComments.2.1.length = 20000
    ∧ (complexDb 200 100 20).FindUsersArticlesComments.2.2.length = 400000
    ∧ List.Chain' (fun x y => x.UserId ≤ y.UserId)
        (complexDb 200 100 20).FindUsersArticlesComments.2.1
    ∧ List.Chain' (fun x y => x.ArticleId ≤ y.ArticleId)
        (complexDb 200 100 20).FindUsersArticlesComments.2.2 := by
  rw [complexQuery_eq 200 100 20 (by norm_num) (by norm_num) (by norm_num)]
  refine ⟨?_, ?_, ?_, ?_, ?_⟩
  · show (genComplexUsers 200).length = 200
    rw [length_genComplexUsers]
  · show (genComplexArticles 200 100).length = 20000
    rw [length_genComplexArticles]
  · show (genComplexComments 200 100 20).length = 400000
    rw [length_genComplexComments]
  · exact (genComplexArticles_userId_pairwise 200 100).chain'
  · exact (genComplexComments_articleId_pairwise 200 100 20).chain'

/-- C10: the complex-scenario generator maintains referential
integrity with closed-form parent ids: every generated article has
`UserId = (Id - 1) / narticlesPerUser + 1 ∈ [1, nusers]` and every
generated comment has
`ArticleId = (Id - 1) / ncommentsPerArticle + 1 ∈ [1, nusers * narticlesPerUser]`;
in particular the validator's looser bounds `UserId ≤ 1 + nusers` and
`ArticleId ≤ 1 + nusers * narticlesPerUser` hold for every generated
row. -/
theorem spec_c10_referential_integrity (n A C : Nat) :
    (∀ art ∈ genComplexArticles n A,
      art.UserId = (art.Id - 1) / A + 1 ∧ 1 ≤ art.UserId ∧ art.UserId ≤ n
        ∧ art.UserId ≤ 1 + n)
    ∧ (∀ com ∈ genComplexComments n A C,
      com.ArticleId = (com.Id - 1) / C + 1 ∧ 1 ≤ com.ArticleId ∧ com.ArticleId ≤ n * A
        ∧ com.ArticleId ≤ 1 + n * A) := by
  constructor
  · intro art h
    obtain ⟨h1, h2, h3⟩ := genComplexArticles_userId_closed h
    exact ⟨h1, h2, h3, by omega⟩
  · intro com h
    obtain ⟨h1, h2, h3⟩ := genComplexComments_articleId_closed h
    exact ⟨h1, h2, h3, by omega⟩

/-- Witness for C10 at concrete parameters `n = 2`, `A = 3`, `C = 2`
and concrete generated rows. -/
theorem spec_c10_witness :
    (complexArticle 3 1 2 ∈ genComplexArticles 2 3
      ∧ ((complexArticle 3 1 2).UserId = ((complexArticle 3 1 2).Id - 1) / 3 + 1
        ∧ 1 ≤ (complexArticle 3 1 2).UserId ∧ (complexArticle 3 1 2).UserId ≤ 2
        ∧ (complexArticle 3 1 2).UserId ≤ 1 + 2))
    ∧ (complexComment 3 2 1 2 1 ∈ genComplexComments 2 3 2
      ∧ ((complexComment 3 2 1 2 1).ArticleId = ((complexComment 3 2 1 2 1).Id - 1) / 2 + 1
        ∧ 1 ≤ (complexComment 3 2 1 2 1).ArticleId
        ∧ (complexComment 3 2 1 2 1).ArticleId ≤ 2 * 3
        ∧ (complexComment 3 2 1 2 1).ArticleId ≤ 1 + 2 * 3)) :=
  ⟨⟨by decide, (spec_c10_referential_integrity 2 3 2).1 (complexArticle 3 1 2) (by decide)⟩,
    ⟨by decide, (spec_c10_referential_integrity 2 3 2).2 (complexComment 3 2 1 2 1) (by decide)⟩⟩

/-- C2: in the simple, many and large scenarios, the returned user at
0-based position `i` of the ascending-id-ordered query result has
`Id = i + 1`, a created year inside the range the generator can
produce (2023..2025 for simple, exactly 2023 for many and large), the
expected deterministic email start (`user0` resp. `a`), and
`Active = true`.  `benchMany` is covered for every `nusers ≤ 1000`
(the values `Run` passes are 10, 100, 1000). -/
theorem spec_c2_returned_user_fields :
    (∀ i, i < 1000000 →
      (simpleDb.FindUsers.getD i defaultUser).Id = i + 1
      ∧ 2023 ≤ (simpleDb.FindUsers.getD i defaultUser).Created.Year
      ∧ (simpleDb.FindUsers.getD i defaultUser).Created.Year ≤ 2025
      ∧ goSlice (simpleDb.FindUsers.getD i defaultUser).Email 0 5 = "user0"
      ∧ (simpleDb.FindUsers.getD i defaultUser).Active = true)
    ∧ (∀ n, n ≤ 1000 → ∀ i, i < n →
      ((manyDb n).FindUsers.getD i defaultUser).Id = i + 1
      ∧ ((manyDb n).FindUsers.getD i defaultUser).Created.Year = 2023
      ∧ goSlice ((manyDb n).FindUsers.getD i defaultUser).Email 0 5 = "user0"
      ∧ ((manyDb n).FindUsers.getD i defaultUser).Active = true)
    ∧ (∀ nsize, 0 < nsize → ∀ i, i < 10000 →
      ((largeDb nsize).FindUsers.getD i defaultUser).Id = i + 1
      ∧ ((largeDb nsize).FindUsers.getD i defaultUser).Created.Year = 2023
      ∧ goSlice ((largeDb nsize).FindUsers.getD i defaultUser).Email 0 1 = "a"
      ∧ ((largeDb nsize).FindUsers.getD i defaultUser).Active = true) := by
  refine ⟨fun i hi => ?_, fun n hn i hi => ?_, fun nsize hns i hi => ?_⟩
  · rw [findUsers_simpleDb]
    have hi' : i < simpleNUsers := hi
    simp only [genSimpleUsers, getD_map_range hi', NewUser]
    obtain ⟨hy1, hy2⟩ := year_range_simple hi
    exact ⟨trivial, hy1, hy2, emailUser08_first5 (by omega), trivial⟩
  · rw [findUsers_manyDb]
    simp only [genManyUsers, getD_map_range hi, NewUser]
    exact ⟨trivial, year_2023_of_minutes (by omega), emailUser08_first5 (by omega), trivial⟩
  · rw [findUsers_largeDb]
    simp only [genLargeUsers, getD_map_range hi, NewUser]
    exact ⟨trivial, year_2023_of_seconds (by omega), stringsRepeat_a_first1 hns, trivial⟩

/-- Witness for C2 at position 5 of the simple result, position 3 of
the many result for `nusers = 10`, and position 7 of the large result
for `nsize = 50000`. -/
theorem spec_c2_witness :
    ((5 : Nat) < 1000000
      ∧ ((simpleDb.FindUsers.getD 5 defaultUser).Id = 5 + 1
        ∧ 2023 ≤ (simpleDb.FindUsers.getD 5 defaultUser).Created.Year
        ∧ (simpleDb.FindUsers.getD 5 defaultUser).Created.Year ≤ 2025
        ∧ goSlice (simpleDb.FindUsers.getD 5 defaultUser).Email 0 5 = "user0"
        ∧ (simpleDb.FindUsers.getD 5 defaultUser).Active = true))
    ∧ ((10 : Nat) ≤ 1000 ∧ (3 : Nat) < 10
      ∧ (((manyDb 10).FindUsers.getD 3 defaultUser).Id = 3 + 1
        ∧ ((manyDb 10).FindUsers.getD 3 defaultUser).Created.Year = 2023
        ∧ goSlice ((manyDb 10).FindUsers.getD 3 defaultUser).Email 0 5 = "user0"
        ∧ ((manyDb 10).FindUsers.getD 3 defaultUser).Active = true))
    ∧ ((0 : Nat) < 50000 ∧ (7 : Nat) < 10000
      ∧ (((largeDb 50000).FindUsers.getD 7 defaultUser).Id = 7 + 1
        ∧ ((largeDb 50000).FindUsers.getD 7 defaultUser).Created.Year = 2023
        ∧ goSlice ((largeDb 50000).FindUsers.getD 7 defaultUser).Email 0 1 = "a"
        ∧ ((largeDb 50000).FindUsers.getD 7 defaultUser).Active = true)) :=
  ⟨⟨by decide, spec_c2_returned_user_fields.1 5 (by decide)⟩,
    ⟨by decide, by decide, spec_c2_returned_user_fields.2.1 10 (by decide) 3 (by decide)⟩,
    ⟨by decide, by decide, spec_c2_returned_user_fields.2.2 50000 (by decide) 7 (by decide)⟩⟩

/-- C4 is contradicted by the code: the reader goroutine body assigns
its query result to the closure-captured outer `users` variable shared
by every reader (app.go line 382 assigns, line 358 declares).  At a
concrete input — shared slice empty, store holding one user — running
one reader body mutates the shared state. -/
theorem spec_c4_reader_writes_shared :
    (readerBody ⟨[NewUser 1 ⟨0⟩ "user1@example.com" true], [], []⟩ ⟨[]⟩).1 ≠ ⟨[]⟩ := by
  decide

/-- C6 as stated is false: under brace expansion the pattern
`user0000000{1..10}@example.com` prefixes every id with seven zeros,
but the email generated for id 10 is `user00000010@example.com` (six
zeros, because `%08d` pads to eight characters in total), so the last
returned email matches no element of the expanded pattern list. -/
theorem spec_c6_counterexample :
    ((manyQueryLoop (manyDb 10) (genManyUsers 10)).getD 9 defaultUser).Email
      ∉ (List.range 10).map fun k => "user0000000" ++ natStr (k + 1) ++ "@example.com" := by
  rw [manyQueryLoop_eq, findUsers_manyDb]
  decide

/-- C6, amended: for `benchMany` with `nusers = 10`, after inserting
the 10 generated users and querying 1000 times the final returned
sequence has length 10, `user[0].Id = 1`, `user[9].Id = 10`, and the
emails are `user%08d@example.com` for ids 1..10 — i.e.
`user00000001@example.com` .. `user00000009@example.com` and
`user00000010@example.com` for the tenth. -/
theorem spec_c6_many10_concrete :
    (manyQueryLoop (manyDb 10) (genManyUsers 10)).length = 10
    ∧ ((manyQueryLoop (manyDb 10) (genManyUsers 10)).getD 0 defaultUser).Id = 1
    ∧ ((manyQueryLoop (manyDb 10) (genManyUsers 10)).getD 9 defaultUser).Id = 10
    ∧ (manyQueryLoop (manyDb 10) (genManyUsers 10)).map User.Email
      = ["user00000001@example.com", "user00000002@example.com",
         "user00000003@example.com", "user00000004@example.com",
         "user00000005@example.com", "user00000006@example.com",
         "user00000007@example.com", "user00000008@example.com",
         "user00000009@example.com", "user00000010@example.com"] := by
  rw [manyQueryLoop_eq, findUsers_manyDb]
  decide

/-- C5 as stated is false: the data line of `benchMany` (likewise
`benchLarge` and `benchConcurrent`) carries only three values — label,
query duration, storage size — and no insert duration (app.go
300-303): at concrete durations its argument list has length 3, not
the four columns the claim requires of every scenario. -/
theorem spec_c5_counterexample : (manyDataArgs 10 7 9).length = 3 ∧ (3 : Nat) ≠ 4 :=
  ⟨rfl, by decide⟩

/-- C5, amended: every scenario prints a fixed-width header line and a
matching fixed-width data line; `benchSimple` and `benchComplex`
report label, insert duration, query duration and storage size (line
width 59), while `benchMany`, `benchLarge` and `benchConcurrent`
report only label, query duration and storage size (line width 46),
with no insert column. -/
theorem spec_c5_report_layout (ins qu sz n nsize ng : Nat)
    (hins : ins < 10 ^ 12) (hqu : qu < 10 ^ 12) (hsz : sz < 10 ^ 12)
    (hn : n < 10 ^ 12) (hnsize : nsize < 10 ^ 12) (hng : ng < 10 ^ 6) :
    ((headerLine4 simpleLabel).length = 59
      ∧ (dataLine4 simpleLabel ins qu sz).length = 59
      ∧ simpleDataArgs ins qu sz = [simpleLabel, natStr ins, natStr qu, natStr sz])
    ∧ ((headerLine4 complexLabel).length = 59
      ∧ (dataLine4 complexLabel ins qu sz).length = 59
      ∧ complexDataArgs ins qu sz = [complexLabel, natStr ins, natStr qu, natStr sz])
    ∧ ((headerLine3 (manyLabel n)).length = 46
      ∧ (dataLine3 (manyLabel n) qu sz).length = 46
      ∧ manyDataArgs n qu sz = [manyLabel n, natStr qu, natStr sz])
    ∧ ((headerLine3 (largeLabel nsize)).length = 46
      ∧ (dataLine3 (largeLabel nsize) qu sz).length = 46
      ∧ largeDataArgs nsize qu sz = [largeLabel nsize, natStr qu, natStr sz])
    ∧ ((headerLine3 (concurrentLabel ng)).length = 46
      ∧ (dataLine3 (concurrentLabel ng) qu sz).length = 46
      ∧ concurrentDataArgs ng qu sz = [concurrentLabel ng, natStr qu, natStr sz]) := by
  refine ⟨⟨headerLine4_length (by decide), dataLine4_length (by decide) hins hqu hsz, rfl⟩,
    ⟨headerLine4_length (by decide), dataLine4_length (by decide) hins hqu hsz, rfl⟩,
    ⟨headerLine3_length (manyLabel_data_length hn),
      dataLine3_length (manyLabel_data_length hn) hqu hsz, rfl⟩,
    ⟨headerLine3_length (largeLabel_data_length hnsize),
      dataLine3_length (largeLabel_data_length hnsize) hqu hsz, rfl⟩,
    ⟨headerLine3_length (concurrentLabel_data_length hng),
      dataLine3_length (concurrentLabel_data_length hng) hqu hsz, rfl⟩⟩

/-- Witness for the amended C5 at durations and parameters all 5. -/
theorem spec_c5_witness :
    ((5 : Nat) < 10 ^ 12 ∧ (5 : Nat) < 10 ^ 6)
    ∧ (((headerLine4 simpleLabel).length = 59
      ∧ (dataLine4 simpleLabel 5 5 5).length = 59
      ∧ simpleDataArgs 5 5 5 = [simpleLabel, natStr 5, natStr 5, natStr 5])
    ∧ ((headerLine4 complexLabel).length = 59
      ∧ (dataLine4 complexLabel 5 5 5).length = 59
      ∧ complexDataArgs 5 5 5 = [complexLabel, natStr 5, natStr 5, natStr 5])
    ∧ ((headerLine3 (manyLabel 5)).length = 46
      ∧ (dataLine3 (manyLabel 5) 5 5).length = 46
      ∧ manyDataArgs 5 5 5 = [manyLabel 5, natStr 5, natStr 5])
    ∧ ((headerLine3 (largeLabel 5)).length = 46
      ∧ (dataLine3 (largeLabel 5) 5 5).length = 46
      ∧ largeDataArgs 5 5 5 = [largeLabel 5, natStr 5, natStr 5])
    ∧ ((headerLine3 (concurrentLabel 5)).length = 46
      ∧ (dataLine3 (concurrentLabel 5) 5 5).length = 46
      ∧ concurrentDataArgs 5 5 5 = [concurrentLabel 5, natStr 5, natStr 5])) :=
  ⟨⟨by decide, by decide⟩,
    spec_c5_report_layout 5 5 5 5 5 5 (by decide) (by decide) (by decide)
      (by decide) (by decide) (by decide)⟩

/-- C7: the scenario pipelines are deterministic functions of the
fixed base timestamp and the scenario parameters: two runs with
different wall clocks (each from a freshly reset target) generate the
same inserted rows, the same query results, and the same validation
verdicts — only the reported durations can differ. -/
theorem spec_c7_determinism (clock1 clock2 : Nat → Nat) :
    ((benchSimpleRun clock1).inserted = (benchSimpleRun clock2).inserted
      ∧ (benchSimpleRun clock1).returned = (benchSimpleRun clock2).returned
      ∧ (benchSimpleRun clock1).countOk = (benchSimpleRun clock2).countOk
      ∧ (benchSimpleRun clock1).rowsOk = (benchSimpleRun clock2).rowsOk)
    ∧ ((benchComplexRun clock1).insertedUsers = (benchComplexRun clock2).insertedUsers
      ∧ (benchComplexRun clock1).insertedArticles = (benchComplexRun clock2).insertedArticles
      ∧ (benchComplexRun clock1).insertedComments = (benchComplexRun clock2).insertedComments
      ∧ (benchComplexRun clock1).returnedUsers = (benchComplexRun clock2).returnedUsers
      ∧ (benchComplexRun clock1).returnedArticles = (benchComplexRun clock2).returnedArticles
      ∧ (benchComplexRun clock1).returnedComments = (benchComplexRun clock2).returnedComments
      ∧ (benchComplexRun clock1).countOk = (benchComplexRun clock2).countOk
      ∧ (benchComplexRun clock1).rowsOk = (benchComplexRun clock2).rowsOk)
    ∧ (∀ n, (benchManyRun n clock1).inserted = (benchManyRun n clock2).inserted
      ∧ (benchManyRun n clock1).returned = (benchManyRun n clock2).returned
      ∧ (benchManyRun n clock1).countOk = (benchManyRun n clock2).countOk
      ∧ (benchManyRun n clock1).rowsOk = (benchManyRun n clock2).rowsOk)
    ∧ (∀ nsize, (benchLargeRun nsize clock1).inserted = (benchLargeRun nsize clock2).inserted
      ∧ (benchLargeRun nsize clock1).returned = (benchLargeRun nsize clock2).returned
      ∧ (benchLargeRun nsize clock1).countOk = (benchLargeRun nsize clock2).countOk
      ∧ (benchLargeRun nsize clock1).rowsOk = (benchLargeRun nsize clock2).rowsOk)
    ∧ (∀ ng, (benchConcurrentRun ng clock1).inserted = (benchConcurrentRun ng clock2).inserted
      ∧ (benchConcurrentRun ng clock1).readerResults = (benchConcurrentRun ng clock2).readerResults
      ∧ (benchConcurrentRun ng clock1).readerOks = (benchConcurrentRun ng clock2).readerOks) :=
  ⟨⟨rfl, rfl, rfl, rfl⟩, ⟨rfl, rfl, rfl, rfl, rfl, rfl, rfl, rfl⟩,
    fun _ => ⟨rfl, rfl, rfl, rfl⟩, fun _ => ⟨rfl, rfl, rfl, rfl⟩,
    fun _ => ⟨rfl, rfl, rfl⟩⟩

/-- C8: in every possible trace of `benchConcurrent`, the writer's
insert (position 1) and close (position 2) precede every reader's
open: the single-writer seed phase completes and closes before any
reader goroutine opens a connection. -/
theorem spec_c8_writer_before_readers (n : Nat) (t : List ConcEvent)
    (h : IsConcTrace n t) :
    t.getD 0 .writerOpen = .writerOpen
    ∧ t.getD 1 .writerOpen = .writerInsert
    ∧ t.getD 2 .writerOpen = .writerClose
    ∧ ∀ j i, t.getD j .writerOpen = .readerOpen i → 2 < j := by
  obtain ⟨rp, rfl, hre, hfil⟩ := h
  refine ⟨rfl, rfl, rfl, ?_⟩
  intro j i hj
  match j with
  | 0 => simp [writerPhase] at hj
  | 1 => simp [writerPhase] at hj
  | 2 => simp [writerPhase] at hj
  | j + 3 => omega

/-- Witness for C8 on the concrete one-reader trace. -/
theorem spec_c8_witness :
    IsConcTrace 1 (writerPhase ++ [.readerOpen 0, .readerQuery 0, .readerClose 0])
    ∧ ((writerPhase ++ [ConcEvent.readerOpen 0, .readerQuery 0, .readerClose 0]).getD 0
          .writerOpen = .writerOpen
      ∧ (writerPhase ++ [ConcEvent.readerOpen 0, .readerQuery 0, .readerClose 0]).getD 1
          .writerOpen = .writerInsert
      ∧ (writerPhase ++ [ConcEvent.readerOpen 0, .readerQuery 0, .readerClose 0]).getD 2
          .writerOpen = .writerClose
      ∧ ∀ j i, (writerPhase ++ [ConcEvent.readerOpen 0, .readerQuery 0,
          .readerClose 0]).getD j .writerOpen = .readerOpen i → 2 < j) := by
  have htrace : IsConcTrace 1
      (writerPhase ++ [.readerOpen 0, .readerQuery 0, .readerClose 0]) := by
    refine ⟨[.readerOpen 0, .readerQuery 0, .readerClose 0], rfl, by decide, ?_⟩
    intro i hi
    have hi0 : i = 0 := by omega
    subst hi0
    decide
  exact ⟨htrace, spec_c8_writer_before_readers 1 _ htrace⟩

/-- C9: `Run` treats an empty first positional argument as a fatal
configuration error (`dbfile empty, cannot bench`) before any scenario
work, and with a non-empty argument proceeds to run all benchmark
invocations in order. -/
theorem spec_c9_empty_dbfile_fatal :
    RunModel "" = .fatal "dbfile empty, cannot bench"
    ∧ ∀ dbfile : String, dbfile ≠ "" → RunModel dbfile = .ran allBenchCalls := by
  refine ⟨rfl, fun s hs => ?_⟩
  unfold RunModel
  rw [if_neg hs]

/-- Witness for C9 at the concrete argument `bench.db`. -/
theorem spec_c9_witness :
    ("bench.db" : String) ≠ "" ∧ RunModel "bench.db" = .ran allBenchCalls :=
  ⟨by decide, spec_c9_empty_dbfile_fatal.2 "bench.db" (by decide)⟩

end GoSqliteBench
